import Mathlib

/-!
Verification of the test-session state machine of the dyscalculia-ai
repository (src/store/testStore.ts) and the aggregate statistics of the
parent dashboard. Each TypeScript action of the zustand store is embedded
as a pure function on an explicit state record; the current wall-clock
time (Date.now()) is passed as an explicit integer argument.
-/

namespace Dyscalculia

/-- AgeGroup = '5-6' | '7-8' | '9-10'. -/
inductive AgeGroup where
  | a5to6
  | a7to8
  | a9to10
deriving DecidableEq

/-- TestType = 'number-comparison' | 'mental-arithmetic' | 'memory-recall'. -/
inductive TestType where
  | numberComparison
  | mentalArithmetic
  | memoryRecall
deriving DecidableEq

/-- RiskLevel = 'low' | 'medium' | 'high'. -/
inductive RiskLevel where
  | low
  | medium
  | high
deriving DecidableEq

/-- interface Question (testStore.ts lines 7-23). Optional fields become
Option; the emoji metadata fields are carried but unused by the logic. -/
structure Question where
  questionId : String
  testType : TestType
  story : String
  visualObject : String
  leftValue : Option Int
  rightValue : Option Int
  memorySequence : Option (List String)
  options : List String
  correctAnswer : String
  emoji : Option String
  leftEmoji : Option String
  rightEmoji : Option String
  leftLabel : Option String
  rightLabel : Option String
deriving DecidableEq

/-- interface Answer (testStore.ts lines 25-31). responseTimeMs is an Int:
the source computes Date.now() - questionStartTime with no clamping, so a
negative value is representable. -/
structure Answer where
  questionId : String
  selectedAnswer : String
  responseTimeMs : Int
  answerChanges : Nat
  correct : Bool
deriving DecidableEq

/-- interface TestResult (testStore.ts lines 33-39). avgResponseTime is a
rational: the source divides a sum of numbers by a count. -/
structure TestResult where
  testType : TestType
  totalQuestions : Nat
  correctAnswers : Nat
  avgResponseTime : ℚ
  answers : List Answer
deriving DecidableEq

/-- interface RiskAssessment (testStore.ts lines 41-46). -/
structure RiskAssessment where
  riskLevel : RiskLevel
  confidence : ℚ
  explanation : String
  recommendations : List String
deriving DecidableEq

/-- The state fields of the TestStore (testStore.ts lines 48-64). -/
structure TestState where
  sessionId : Option String
  ageGroup : Option AgeGroup
  currentTestType : Option TestType
  questions : List Question
  currentQuestionIndex : Nat
  answers : List Answer
  testResults : List TestResult
  riskAssessment : Option RiskAssessment
  questionStartTime : Option Int
deriving DecidableEq

/-- Initial state (testStore.ts lines 84-92). -/
def initialState : TestState :=
  { sessionId := none
    ageGroup := none
    currentTestType := none
    questions := []
    currentQuestionIndex := 0
    answers := []
    testResults := []
    riskAssessment := none
    questionStartTime := none }

/-- setSessionId (testStore.ts lines 97-107): stores the id and clears all
session-specific data; ageGroup is not in the set() object. -/
def setSessionId (id : String) (s : TestState) : TestState :=
  { s with
    sessionId := some id
    currentTestType := none
    questions := []
    currentQuestionIndex := 0
    answers := []
    testResults := []
    riskAssessment := none
    questionStartTime := none }

/-- setAgeGroup (testStore.ts line 109). -/
def setAgeGroup (age : AgeGroup) (s : TestState) : TestState :=
  { s with ageGroup := some age }

/-- startTest (testStore.ts lines 111-117); now is Date.now(). -/
def startTest (testType : TestType) (qs : List Question) (now : Int)
    (s : TestState) : TestState :=
  { s with
    currentTestType := some testType
    questions := qs
    currentQuestionIndex := 0
    answers := []
    questionStartTime := some now }

/-- submitAnswer (testStore.ts lines 119-137); now is Date.now(). The guard
is the JS test (!currentQuestion || !questionStartTime): it fires when the
index is out of range, when questionStartTime is null, and also when
questionStartTime is the falsy number 0. -/
def submitAnswer (answer : String) (answerChanges : Nat) (now : Int)
    (s : TestState) : TestState :=
  match s.questions[s.currentQuestionIndex]? with
  | none => s
  | some q =>
    match s.questionStartTime with
    | none => s
    | some t =>
      if t = 0 then s
      else
        { s with
          answers := s.answers ++
            [{ questionId := q.questionId
               selectedAnswer := answer
               responseTimeMs := now - t
               answerChanges := answerChanges
               correct := answer == q.correctAnswer }] }

/-- nextQuestion (testStore.ts lines 139-147); the JS guard
currentQuestionIndex < questions.length - 1 (number arithmetic, so -1 when
the list is empty) is exactly currentQuestionIndex + 1 < questions.length
for a natural index. -/
def nextQuestion (now : Int) (s : TestState) : TestState :=
  if s.currentQuestionIndex + 1 < s.questions.length then
    { s with
      currentQuestionIndex := s.currentQuestionIndex + 1
      questionStartTime := some now }
  else s

/-- Sum of responseTimeMs over a list of answers (the reduce at
testStore.ts line 156). -/
def sumResponseTimes (as_ : List Answer) : Int :=
  (as_.map (·.responseTimeMs)).sum

/-- completeTest (testStore.ts lines 149-175). -/
def completeTest (s : TestState) : TestState :=
  match s.currentTestType with
  | none => s
  | some tt =>
    let correctCount := (s.answers.filter (·.correct)).length
    let avgTime : ℚ :=
      if s.answers.length > 0 then
        (sumResponseTimes s.answers : ℚ) / (s.answers.length : ℚ)
      else 0
    { s with
      testResults := s.testResults ++
        [{ testType := tt
           totalQuestions := s.questions.length
           correctAnswers := correctCount
           avgResponseTime := avgTime
           answers := s.answers }]
      currentTestType := none
      questions := []
      currentQuestionIndex := 0
      answers := []
      questionStartTime := none }

/-- setRiskAssessment (testStore.ts line 177). -/
def setRiskAssessment (assessment : RiskAssessment) (s : TestState) :
    TestState :=
  { s with riskAssessment := some assessment }

/-- resetSession (testStore.ts lines 179-189): every field is set back to
its initial value, so the result is exactly the initial state. -/
def resetSession (_s : TestState) : TestState :=
  initialState

/-- getCurrentQuestion (testStore.ts lines 192-195): the JS expression
questions[i] || null is absence exactly when the index is out of range,
since a Question object is never falsy. -/
def getCurrentQuestion (s : TestState) : Option Question :=
  s.questions[s.currentQuestionIndex]?

/-- getProgress (testStore.ts lines 197-201). -/
def getProgress (s : TestState) : ℚ :=
  if s.questions.length = 0 then 0
  else ((s.currentQuestionIndex : ℚ) + 1) / (s.questions.length : ℚ) * 100

/-- isTestComplete (testStore.ts lines 203-206). -/
def isTestComplete (s : TestState) : Bool :=
  decide (0 < s.questions.length) &&
    (s.answers.length == s.questions.length)

/-- Dashboard aggregate (part_003 line 32): sum of totalQuestions. -/
def totalQuestionsOf (rs : List TestResult) : Nat :=
  (rs.map (·.totalQuestions)).sum

/-- Dashboard aggregate (part_003 line 33): sum of correctAnswers. -/
def totalCorrectOf (rs : List TestResult) : Nat :=
  (rs.map (·.correctAnswers)).sum

/-- Dashboard aggregate (part_003 line 34): overall accuracy percentage. -/
def overallAccuracy (rs : List TestResult) : ℚ :=
  if 0 < totalQuestionsOf rs then
    ((totalCorrectOf rs : ℚ) / (totalQuestionsOf rs : ℚ)) * 100
  else 0

/-- Dashboard aggregate (part_003 lines 35-37 without the /1000 display
conversion, and line 54 verbatim): mean of the per-module avgResponseTime
values. -/
def overallAvgResponseTime (rs : List TestResult) : ℚ :=
  if 0 < rs.length then
    ((rs.map (·.avgResponseTime)).sum) / (rs.length : ℚ)
  else 0

/-- The per-answer (question-count weighted) mean response time over all
answers of all results: what the dashboard average would be if it were
re-weighted by module size. Used to contrast with overallAvgResponseTime. -/
def flatMeanResponseTime (rs : List TestResult) : ℚ :=
  let allAnswers := rs.flatMap (·.answers)
  if 0 < allAnswers.length then
    (sumResponseTimes allAnswers : ℚ) / (allAnswers.length : ℚ)
  else 0

/-- The demo fixture hard-coded in the parent dashboard
(part_003 lines 23-27); the answers lists are empty there. -/
def demoResults : List TestResult :=
  [ { testType := TestType.numberComparison
      totalQuestions := 5
      correctAnswers := 4
      avgResponseTime := 4500
      answers := [] }
  , { testType := TestType.mentalArithmetic
      totalQuestions := 5
      correctAnswers := 3
      avgResponseTime := 6200
      answers := [] }
  , { testType := TestType.memoryRecall
      totalQuestions := 5
      correctAnswers := 4
      avgResponseTime := 5100
      answers := [] } ]

/-- A concrete question used to exercise the operations on closed inputs. -/
def sampleQuestion : Question :=
  { questionId := "q1"
    testType := TestType.numberComparison
    story := "Who has more carrots?"
    visualObject := "carrot"
    leftValue := some 3
    rightValue := some 5
    memorySequence := none
    options := ["3", "5"]
    correctAnswer := "5"
    emoji := none
    leftEmoji := none
    rightEmoji := none
    leftLabel := none
    rightLabel := none }

/-- A second concrete question. -/
def sampleQuestion2 : Question :=
  { sampleQuestion with questionId := "q2", correctAnswer := "3" }

/-- A third concrete question. -/
def sampleQuestion3 : Question :=
  { sampleQuestion with questionId := "q3", correctAnswer := "7" }

/-- A started one-question test whose start timestamp is the falsy number
0: Date.now() read 0 when startTest stamped the clock. -/
def zeroClockState : TestState :=
  startTest TestType.numberComparison [sampleQuestion] 0 initialState

/-- A started one-question test stamped at clock time 10. -/
def skewClockState : TestState :=
  startTest TestType.numberComparison [sampleQuestion] 10 initialState

/-- j successive nextQuestion calls, the k-th made at clock time times k. -/
def iterNext (times : Nat → Int) : Nat → TestState → TestState
  | 0, s => s
  | j + 1, s => nextQuestion (times j) (iterNext times j s)

/-- A two-module session: a two-question number-comparison test answered
at elapsed times 1000 and 3000 ms, then a one-question mental-arithmetic
test answered at elapsed time 6000 ms. -/
def meansExampleRun : TestState :=
  completeTest (submitAnswer "4" 0 6500 (startTest
    TestType.mentalArithmetic [sampleQuestion3] 500
    (completeTest (submitAnswer "3" 0 3200 (nextQuestion 200
      (submitAnswer "5" 0 1100 (startTest TestType.numberComparison
        [sampleQuestion, sampleQuestion2] 100 initialState)))))))

/-- States reachable from the initial state by any sequence of store
actions, with arbitrary arguments and arbitrary clock readings. -/
inductive Reachable : TestState → Prop where
  | init : Reachable initialState
  | stepSetSessionId (id : String) (s : TestState) :
      Reachable s → Reachable (setSessionId id s)
  | stepSetAgeGroup (age : AgeGroup) (s : TestState) :
      Reachable s → Reachable (setAgeGroup age s)
  | stepStartTest (tt : TestType) (qs : List Question) (now : Int)
      (s : TestState) : Reachable s → Reachable (startTest tt qs now s)
  | stepSubmitAnswer (a : String) (c : Nat) (now : Int) (s : TestState) :
      Reachable s → Reachable (submitAnswer a c now s)
  | stepNextQuestion (now : Int) (s : TestState) :
      Reachable s → Reachable (nextQuestion now s)
  | stepCompleteTest (s : TestState) :
      Reachable s → Reachable (completeTest s)
  | stepSetRiskAssessment (r : RiskAssessment) (s : TestState) :
      Reachable s → Reachable (setRiskAssessment r s)
  | stepResetSession (s : TestState) :
      Reachable s → Reachable (resetSession s)

/-- Cursor range invariant: 0 on an empty question list, otherwise a valid
index into the question list. -/
def cursorInv (s : TestState) : Prop :=
  (s.questions = [] → s.currentQuestionIndex = 0) ∧
  (s.questions ≠ [] → s.currentQuestionIndex < s.questions.length)

/-- The answer recorded when the correct option of sampleQuestion is
submitted at clock 1100 on a test stamped at clock 100. -/
def recordedAnswer : Answer :=
  { questionId := "q1"
    selectedAnswer := "5"
    responseTimeMs := 1000
    answerChanges := 0
    correct := true }

/-- submitAnswer never changes the question list. -/
lemma submitAnswer_questions (a : String) (c : Nat) (now : Int)
    (s : TestState) : (submitAnswer a c now s).questions = s.questions := by
  cases hq : s.questions[s.currentQuestionIndex]? with
  | none => simp [submitAnswer, hq]
  | some q =>
    cases ht : s.questionStartTime with
    | none => simp [submitAnswer, hq, ht]
    | some t =>
      by_cases h0 : t = 0 <;> simp [submitAnswer, hq, ht, h0]

/-- submitAnswer never changes the cursor. -/
lemma submitAnswer_index (a : String) (c : Nat) (now : Int)
    (s : TestState) :
    (submitAnswer a c now s).currentQuestionIndex =
      s.currentQuestionIndex := by
  cases hq : s.questions[s.currentQuestionIndex]? with
  | none => simp [submitAnswer, hq]
  | some q =>
    cases ht : s.questionStartTime with
    | none => simp [submitAnswer, hq, ht]
    | some t =>
      by_cases h0 : t = 0 <;> simp [submitAnswer, hq, ht, h0]

/-- When the guard passes (a current question exists and the start time is
a non-zero recorded timestamp), submitAnswer builds and appends exactly the
record from the source. -/
lemma submitAnswer_eq_of_guard (a : String) (c : Nat) (now : Int)
    (s : TestState) (q : Question) (t : Int)
    (hq : s.questions[s.currentQuestionIndex]? = some q)
    (ht : s.questionStartTime = some t) (h0 : t ≠ 0) :
    submitAnswer a c now s =
      { s with answers := s.answers ++
          [{ questionId := q.questionId
             selectedAnswer := a
             responseTimeMs := now - t
             answerChanges := c
             correct := a == q.correctAnswer }] } := by
  simp [submitAnswer, hq, ht, h0]

/-- nextQuestion never changes the question list. -/
lemma nextQuestion_questions (now : Int) (s : TestState) :
    (nextQuestion now s).questions = s.questions := by
  by_cases h : s.currentQuestionIndex + 1 < s.questions.length <;>
    simp [nextQuestion, h]

/-- C1: setSessionId stores the id, resets currentTestType, questions,
currentQuestionIndex, answers, testResults, riskAssessment and
questionStartTime to their initial values, and leaves ageGroup unchanged,
from any prior state. -/
theorem setSessionId_resets_session (id : String) (s : TestState) :
    (setSessionId id s).sessionId = some id ∧
    (setSessionId id s).currentTestType = none ∧
    (setSessionId id s).questions = [] ∧
    (setSessionId id s).currentQuestionIndex = 0 ∧
    (setSessionId id s).answers = [] ∧
    (setSessionId id s).testResults = [] ∧
    (setSessionId id s).riskAssessment = none ∧
    (setSessionId id s).questionStartTime = none ∧
    (setSessionId id s).ageGroup = s.ageGroup := by
  refine ⟨rfl, rfl, rfl, rfl, rfl, rfl, rfl, rfl, rfl⟩

/-- C6: isTestComplete is true iff the question list is non-empty and the
answer count equals the question count; hence it is false while fewer
answers than questions have been recorded, and true once the counts agree
on a non-empty test. -/
theorem isTestComplete_iff (s : TestState) :
    (isTestComplete s = true ↔
      0 < s.questions.length ∧ s.answers.length = s.questions.length) ∧
    (s.answers.length < s.questions.length → isTestComplete s = false) ∧
    (0 < s.questions.length → s.answers.length = s.questions.length →
      isTestComplete s = true) := by
  refine ⟨?_, ?_, ?_⟩
  · simp [isTestComplete]
  · intro hlt
    simp [isTestComplete]
    intro _
    omega
  · intro hpos heq
    simp [isTestComplete, hpos, heq]

/-- Closed instance of isTestComplete_iff: on a one-question test it is
false with no answer recorded and true with one. -/
theorem isTestComplete_iff_witness :
    (isTestComplete (startTest TestType.numberComparison [sampleQuestion]
      100 initialState) = false) ∧
    (isTestComplete (submitAnswer "5" 0 1100 (startTest
      TestType.numberComparison [sampleQuestion] 100 initialState)) =
      true) := by
  constructor
  · exact (isTestComplete_iff (startTest TestType.numberComparison
      [sampleQuestion] 100 initialState)).2.1 (by decide)
  · exact (isTestComplete_iff (submitAnswer "5" 0 1100 (startTest
      TestType.numberComparison [sampleQuestion] 100 initialState))).2.2
      (by decide) (by decide)

/-- C7: submitAnswer with no current question or no recorded start time,
and completeTest with no current test type, return the state unchanged in
every field. -/
theorem noop_guards (a : String) (c : Nat) (now : Int) (s : TestState) :
    (s.questions[s.currentQuestionIndex]? = none →
      submitAnswer a c now s = s) ∧
    (s.questionStartTime = none → submitAnswer a c now s = s) ∧
    (s.currentTestType = none → completeTest s = s) := by
  refine ⟨?_, ?_, ?_⟩
  · intro hq
    simp [submitAnswer, hq]
  · intro ht
    cases hq : s.questions[s.currentQuestionIndex]? with
    | none => simp [submitAnswer, hq]
    | some q => simp [submitAnswer, hq, ht]
  · intro hc
    simp [completeTest, hc]

/-- Closed instance of noop_guards at the initial state. -/
theorem noop_guards_witness :
    submitAnswer "5" 0 7 initialState = initialState ∧
    completeTest initialState = initialState :=
  ⟨(noop_guards "5" 0 7 initialState).1 rfl,
   (noop_guards "5" 0 7 initialState).2.2 rfl⟩

/-- C2 counterexample: in zeroClockState the cursor points at a present
question and questionStartTime is recorded (some 0), yet submitAnswer
appends nothing and changes nothing, because the JS guard
(!questionStartTime) treats the timestamp 0 as absent. -/
theorem submitAnswer_zero_clock_counterexample :
    zeroClockState.currentQuestionIndex < zeroClockState.questions.length ∧
    zeroClockState.questionStartTime = some 0 ∧
    submitAnswer "5" 0 7 zeroClockState = zeroClockState ∧
    (submitAnswer "5" 0 7 zeroClockState).answers = [] := by
  refine ⟨by decide, rfl, rfl, rfl⟩

/-- C2 amended: whenever the cursor points at a present question and the
recorded questionStartTime is non-zero, submitAnswer appends exactly one
Answer at the end of answers, carrying the current question's id, the
submitted answer, the given change count, and correctness decided by exact
string equality with the question's correctAnswer; the cursor does not
advance. -/
theorem submitAnswer_appends (a : String) (c : Nat) (now : Int)
    (s : TestState) (q : Question) (t : Int)
    (hq : s.questions[s.currentQuestionIndex]? = some q)
    (ht : s.questionStartTime = some t) (h0 : t ≠ 0) :
    (submitAnswer a c now s).answers = s.answers ++
      [{ questionId := q.questionId
         selectedAnswer := a
         responseTimeMs := now - t
         answerChanges := c
         correct := a == q.correctAnswer }] ∧
    (submitAnswer a c now s).currentQuestionIndex =
      s.currentQuestionIndex := by
  rw [submitAnswer_eq_of_guard a c now s q t hq ht h0]
  exact ⟨rfl, rfl⟩

/-- Closed instance of submitAnswer_appends: on a started test with start
time 100, submitting the correct option at time 1100 appends one correct
answer and keeps the cursor at 0. -/
theorem submitAnswer_appends_witness :
    (submitAnswer "5" 0 1100 (startTest TestType.numberComparison
      [sampleQuestion] 100 initialState)).answers =
      (startTest TestType.numberComparison [sampleQuestion] 100
        initialState).answers ++
      [{ questionId := sampleQuestion.questionId
         selectedAnswer := "5"
         responseTimeMs := 1100 - 100
         answerChanges := 0
         correct := ("5" == sampleQuestion.correctAnswer) }] ∧
    (submitAnswer "5" 0 1100 (startTest TestType.numberComparison
      [sampleQuestion] 100 initialState)).currentQuestionIndex =
      (startTest TestType.numberComparison [sampleQuestion] 100
        initialState).currentQuestionIndex :=
  submitAnswer_appends "5" 0 1100
    (startTest TestType.numberComparison [sampleQuestion] 100 initialState)
    sampleQuestion 100 rfl rfl (by decide)

/-- C3 counterexample: submitting at clock time 5, earlier than the
recorded start time 10, records an Answer with responseTimeMs = -5; the
source does not clamp negative elapsed times to 0. -/
theorem responseTime_negative_counterexample :
    (submitAnswer "5" 0 5 skewClockState).answers.map
      (·.responseTimeMs) = [-5] ∧
    ∃ x ∈ (submitAnswer "5" 0 5 skewClockState).answers,
      x.responseTimeMs < 0 := by
  decide

/-- C3 amended: responseTimeMs is now - questionStartTime with no
clamping; every answer recorded by submitAnswer is either an old answer or
has responseTimeMs = now - t, which is nonnegative exactly when the
submission clock reading is at least the recorded start time. -/
theorem responseTime_eq_elapsed (a : String) (c : Nat) (now : Int)
    (s : TestState) (q : Question) (t : Int)
    (hq : s.questions[s.currentQuestionIndex]? = some q)
    (ht : s.questionStartTime = some t) (h0 : t ≠ 0) (hc : t ≤ now) :
    ∀ x ∈ (submitAnswer a c now s).answers,
      x ∈ s.answers ∨ (x.responseTimeMs = now - t ∧ 0 ≤ x.responseTimeMs) := by
  intro x hx
  rw [submitAnswer_eq_of_guard a c now s q t hq ht h0] at hx
  simp only [List.mem_append, List.mem_singleton] at hx
  rcases hx with hold | hnew
  · exact Or.inl hold
  · refine Or.inr ⟨by rw [hnew], ?_⟩
    rw [hnew]
    show (0 : Int) ≤ now - t
    omega

/-- Closed instance of responseTime_eq_elapsed: the answer recorded by
submitting at time 1100 on a test stamped at 100 is new and has
nonnegative elapsed time 1000. -/
theorem responseTime_eq_elapsed_witness :
    recordedAnswer ∈ (startTest TestType.numberComparison [sampleQuestion]
      100 initialState).answers ∨
    (recordedAnswer.responseTimeMs = 1100 - 100 ∧
      0 ≤ recordedAnswer.responseTimeMs) :=
  responseTime_eq_elapsed "5" 0 1100
    (startTest TestType.numberComparison [sampleQuestion] 100 initialState)
    sampleQuestion 100 rfl rfl (by decide) (by decide) recordedAnswer
    (by decide)

/-- C4: with a current test type, completeTest appends exactly one
TestResult at the end of testResults — built from the current test type,
the question count, the count of correct answers, the mean response time
(0 when no answers) and the full answer list — so the testType history
grows in order, and it clears the in-progress fields to the no-test
baseline while testResults, riskAssessment, sessionId and ageGroup
survive. -/
theorem completeTest_appends_result (s : TestState) (tt : TestType)
    (h : s.currentTestType = some tt) :
    (completeTest s).testResults = s.testResults ++
      [{ testType := tt
         totalQuestions := s.questions.length
         correctAnswers := (s.answers.filter (·.correct)).length
         avgResponseTime :=
           if 0 < s.answers.length then
             (sumResponseTimes s.answers : ℚ) / (s.answers.length : ℚ)
           else 0
         answers := s.answers }] ∧
    ((completeTest s).testResults.map (·.testType)) =
      (s.testResults.map (·.testType)) ++ [tt] ∧
    (completeTest s).testResults.length = s.testResults.length + 1 ∧
    (completeTest s).currentTestType = none ∧
    (completeTest s).questions = [] ∧
    (completeTest s).currentQuestionIndex = 0 ∧
    (completeTest s).answers = [] ∧
    (completeTest s).questionStartTime = none ∧
    (completeTest s).riskAssessment = s.riskAssessment ∧
    (completeTest s).sessionId = s.sessionId ∧
    (completeTest s).ageGroup = s.ageGroup := by
  simp [completeTest, h]

/-- Closed instance of completeTest_appends_result: completing a started
one-question test with one correct answer records one result with mean
response time 1000 and clears the in-progress fields. -/
theorem completeTest_appends_result_witness :
    (completeTest (submitAnswer "5" 0 1100 (startTest
      TestType.numberComparison [sampleQuestion] 100
      initialState))).testResults =
      (submitAnswer "5" 0 1100 (startTest TestType.numberComparison
        [sampleQuestion] 100 initialState)).testResults ++
      [{ testType := TestType.numberComparison
         totalQuestions := 1
         correctAnswers := 1
         avgResponseTime := 1000
         answers := [{ questionId := "q1", selectedAnswer := "5",
                       responseTimeMs := 1000, answerChanges := 0,
                       correct := true }] }] ∧
    (completeTest (submitAnswer "5" 0 1100 (startTest
      TestType.numberComparison [sampleQuestion] 100
      initialState))).currentTestType = none := by
  have h := completeTest_appends_result (submitAnswer "5" 0 1100
    (startTest TestType.numberComparison [sampleQuestion] 100
      initialState)) TestType.numberComparison rfl
  refine ⟨?_, h.2.2.2.1⟩
  rw [h.1]
  simp [submitAnswer, startTest, initialState, sampleQuestion,
    sumResponseTimes]

/-- Iterated nextQuestion never changes the question list. -/
lemma iterNext_questions (times : Nat → Int) (j : Nat) (s : TestState) :
    (iterNext times j s).questions = s.questions := by
  induction j with
  | zero => rfl
  | succ j ih =>
    show (nextQuestion (times j) (iterNext times j s)).questions =
      s.questions
    rw [nextQuestion_questions, ih]

/-- From a cursor at 0, j in-range nextQuestion calls put the cursor at j. -/
lemma iterNext_index (times : Nat → Int) (j : Nat) (s : TestState)
    (h0 : s.currentQuestionIndex = 0) (hj : j < s.questions.length) :
    (iterNext times j s).currentQuestionIndex = j := by
  induction j with
  | zero => exact h0
  | succ j ih =>
    have hjlt : j < s.questions.length := Nat.lt_of_succ_lt hj
    have hq := iterNext_questions times j s
    have hidx := ih hjlt
    show (nextQuestion (times j) (iterNext times j s)).currentQuestionIndex
      = j + 1
    simp [nextQuestion, hq, hidx, hj]

/-- C5: after startTest with K = len qs questions (j < K of them already
advanced past), getProgress is (j+1)/K*100; nextQuestion at the last index
leaves the state unchanged; getProgress is 0 on an empty question list and
lies in (0, 100] along the run. -/
theorem progress_after_advances (tt : TestType) (qs : List Question)
    (now : Int) (times : Nat → Int) (s : TestState) (j : Nat)
    (hj : j < qs.length) :
    getProgress (iterNext times j (startTest tt qs now s)) =
      ((j : ℚ) + 1) / (qs.length : ℚ) * 100 ∧
    (∀ s2 : TestState, ∀ n : Int,
      s2.currentQuestionIndex = s2.questions.length - 1 →
      nextQuestion n s2 = s2) ∧
    (∀ s2 : TestState, s2.questions = [] → getProgress s2 = 0) ∧
    0 < getProgress (iterNext times j (startTest tt qs now s)) ∧
    getProgress (iterNext times j (startTest tt qs now s)) ≤ 100 := by
  have hq : (iterNext times j (startTest tt qs now s)).questions = qs :=
    iterNext_questions times j (startTest tt qs now s)
  have hidx :
      (iterNext times j (startTest tt qs now s)).currentQuestionIndex =
        j :=
    iterNext_index times j (startTest tt qs now s) rfl hj
  have hK : 0 < qs.length := Nat.lt_of_le_of_lt (Nat.zero_le j) hj
  have hKQ : (0 : ℚ) < (qs.length : ℚ) := by exact_mod_cast hK
  have hprog : getProgress (iterNext times j (startTest tt qs now s)) =
      ((j : ℚ) + 1) / (qs.length : ℚ) * 100 := by
    simp [getProgress, hq, hidx, Nat.pos_iff_ne_zero.mp hK]
  refine ⟨hprog, ?_, ?_, ?_, ?_⟩
  · intro s2 n h
    have hng : ¬ (s2.currentQuestionIndex + 1 < s2.questions.length) := by
      omega
    simp [nextQuestion, hng]
  · intro s2 h
    simp [getProgress, h]
  · rw [hprog]
    have hnum : (0 : ℚ) < (j : ℚ) + 1 := by positivity
    exact mul_pos (div_pos hnum hKQ) (by norm_num)
  · rw [hprog]
    have hle : ((j : ℚ) + 1) / (qs.length : ℚ) ≤ 1 := by
      rw [div_le_one hKQ]
      have hsucc : (j + 1 : Nat) ≤ qs.length := hj
      exact_mod_cast hsucc
    have hmul := mul_le_mul_of_nonneg_right hle
      (by norm_num : (0 : ℚ) ≤ 100)
    simpa using hmul

/-- Closed instance of progress_after_advances on a two-question test with
one advance: progress is 100. -/
theorem progress_after_advances_witness :
    getProgress (iterNext (fun _ => 200) 1 (startTest
      TestType.numberComparison [sampleQuestion, sampleQuestion2] 100
      initialState)) =
      (((1 : Nat) : ℚ) + 1) /
        (([sampleQuestion, sampleQuestion2].length : ℚ)) * 100 ∧
    (∀ s2 : TestState, ∀ n : Int,
      s2.currentQuestionIndex = s2.questions.length - 1 →
      nextQuestion n s2 = s2) ∧
    (∀ s2 : TestState, s2.questions = [] → getProgress s2 = 0) ∧
    0 < getProgress (iterNext (fun _ => 200) 1 (startTest
      TestType.numberComparison [sampleQuestion, sampleQuestion2] 100
      initialState)) ∧
    getProgress (iterNext (fun _ => 200) 1 (startTest
      TestType.numberComparison [sampleQuestion, sampleQuestion2] 100
      initialState)) ≤ 100 :=
  progress_after_advances TestType.numberComparison
    [sampleQuestion, sampleQuestion2] 100 (fun _ => 200) initialState 1
    (by decide)

/-- The two results recorded by meansExampleRun: per-module mean response
times 2000 and 6000 over answer lists of unequal lengths 2 and 1. -/
lemma meansExampleRun_results :
    meansExampleRun.testResults =
      [ { testType := TestType.numberComparison
          totalQuestions := 2
          correctAnswers := 2
          avgResponseTime := 2000
          answers := [ { questionId := "q1", selectedAnswer := "5",
                         responseTimeMs := 1000, answerChanges := 0,
                         correct := true },
                       { questionId := "q2", selectedAnswer := "3",
                         responseTimeMs := 3000, answerChanges := 0,
                         correct := true } ] }
      , { testType := TestType.mentalArithmetic
          totalQuestions := 1
          correctAnswers := 0
          avgResponseTime := 6000
          answers := [ { questionId := "q3", selectedAnswer := "4",
                         responseTimeMs := 6000, answerChanges := 0,
                         correct := false } ] } ] := by
  simp [meansExampleRun, completeTest, submitAnswer, nextQuestion,
    startTest, initialState, sampleQuestion, sampleQuestion2,
    sampleQuestion3, sumResponseTimes]
  norm_num

/-- C8: overall accuracy is the summed correct count over the summed
question count, times 100, and 0 with no questions; on the dashboard demo
fixture with (total, correct) pairs (5,4), (5,3), (5,4) it is
11/15*100 = 220/3 percent. -/
theorem overallAccuracy_sum_ratio (rs : List TestResult) :
    (totalQuestionsOf rs = 0 → overallAccuracy rs = 0) ∧
    (0 < totalQuestionsOf rs → overallAccuracy rs =
      ((totalCorrectOf rs : ℚ) / (totalQuestionsOf rs : ℚ)) * 100) ∧
    overallAccuracy demoResults = 220 / 3 := by
  refine ⟨?_, ?_, ?_⟩
  · intro h
    simp [overallAccuracy, h]
  · intro h
    simp [overallAccuracy, h]
  · norm_num [overallAccuracy, totalQuestionsOf, totalCorrectOf,
      demoResults]

/-- Closed instance of overallAccuracy_sum_ratio at the empty list and at
the demo fixture. -/
theorem overallAccuracy_sum_ratio_witness :
    overallAccuracy [] = 0 ∧
    overallAccuracy demoResults =
      ((totalCorrectOf demoResults : ℚ) /
        (totalQuestionsOf demoResults : ℚ)) * 100 :=
  ⟨(overallAccuracy_sum_ratio []).1 rfl,
   (overallAccuracy_sum_ratio demoResults).2.1 (by decide)⟩

/-- C9: the dashboard's overall average response time is the plain mean of
the per-module avgResponseTime values; on the two-module session
meansExampleRun with unequal answer counts (2 and 1) it is 4000, while the
per-answer mean over all individual answers is 10000/3, so the two
aggregates differ. -/
theorem overallAvg_mean_of_means (rs : List TestResult) :
    (0 < rs.length → overallAvgResponseTime rs =
      ((rs.map (·.avgResponseTime)).sum) / (rs.length : ℚ)) ∧
    overallAvgResponseTime meansExampleRun.testResults = 4000 ∧
    flatMeanResponseTime meansExampleRun.testResults = 10000 / 3 ∧
    overallAvgResponseTime meansExampleRun.testResults ≠
      flatMeanResponseTime meansExampleRun.testResults := by
  have h2 : overallAvgResponseTime meansExampleRun.testResults = 4000 := by
    rw [meansExampleRun_results]
    norm_num [overallAvgResponseTime]
  have h3 : flatMeanResponseTime meansExampleRun.testResults =
      10000 / 3 := by
    rw [meansExampleRun_results]
    norm_num [flatMeanResponseTime, sumResponseTimes]
  refine ⟨?_, h2, h3, ?_⟩
  · intro h
    simp [overallAvgResponseTime, h]
  · rw [h2, h3]
    norm_num

/-- Closed instance of overallAvg_mean_of_means at the two-module run. -/
theorem overallAvg_mean_of_means_witness :
    overallAvgResponseTime meansExampleRun.testResults =
      ((meansExampleRun.testResults.map (·.avgResponseTime)).sum) /
        (meansExampleRun.testResults.length : ℚ) :=
  (overallAvg_mean_of_means meansExampleRun.testResults).1 (by decide)

/-- Every store action preserves the cursor range invariant. -/
lemma cursorInv_reachable (s : TestState) (h : Reachable s) :
    cursorInv s := by
  induction h with
  | init => exact ⟨fun _ => rfl, fun h => absurd rfl h⟩
  | stepSetSessionId id s hs ih => exact ⟨fun _ => rfl, fun h => absurd rfl h⟩
  | stepSetAgeGroup age s hs ih => exact ih
  | stepStartTest tt qs now s hs ih =>
    refine ⟨fun hq => rfl, fun hq => ?_⟩
    have : qs ≠ [] := hq
    have : 0 < qs.length := List.length_pos.mpr this
    simpa [startTest] using this
  | stepSubmitAnswer a c now s hs ih =>
    have hq := submitAnswer_questions a c now s
    have hi := submitAnswer_index a c now s
    exact ⟨fun h => by rw [hi]; exact ih.1 (by rwa [hq] at h),
           fun h => by rw [hi, hq]; exact ih.2 (by rwa [hq] at h)⟩
  | stepNextQuestion now s hs ih =>
    by_cases hlt : s.currentQuestionIndex + 1 < s.questions.length
    · refine ⟨fun hq => ?_, fun hq => ?_⟩
      · rw [nextQuestion_questions] at hq
        simp [hq] at hlt
      · simp [nextQuestion, hlt]
    · simpa [nextQuestion, hlt] using ih
  | stepCompleteTest s hs ih =>
    cases hc : s.currentTestType with
    | none =>
      have hid : completeTest s = s := by simp [completeTest, hc]
      rw [hid]
      exact ih
    | some tt =>
      refine ⟨fun _ => ?_, fun hq => ?_⟩
      · simp [completeTest, hc]
      · have : (completeTest s).questions = [] := by simp [completeTest, hc]
        exact absurd this hq
  | stepSetRiskAssessment r s hs ih => exact ih
  | stepResetSession s hs ih => exact ⟨fun _ => rfl, fun h => absurd rfl h⟩

/-- C10: in every reachable state the cursor is in range (0 on an empty
question list, a valid index otherwise); hence getCurrentQuestion is
present whenever questions is non-empty, and getProgress never exceeds
100. -/
theorem reachable_cursor_in_range (s : TestState) (h : Reachable s) :
    cursorInv s ∧
    (s.questions ≠ [] → (getCurrentQuestion s).isSome = true) ∧
    getProgress s ≤ 100 := by
  have hinv := cursorInv_reachable s h
  refine ⟨hinv, fun hq => ?_, ?_⟩
  · have hlt := hinv.2 hq
    simp [getCurrentQuestion, List.getElem?_eq_getElem hlt]
  · by_cases hq : s.questions = []
    · simp [getProgress, hq]
    · have hlt := hinv.2 hq
      have hlen : s.questions.length ≠ 0 :=
        Nat.pos_iff_ne_zero.mp (List.length_pos.mpr hq)
      have hKQ : (0 : ℚ) < (s.questions.length : ℚ) := by
        exact_mod_cast Nat.pos_of_ne_zero hlen
      have hle : ((s.currentQuestionIndex : ℚ) + 1) /
          (s.questions.length : ℚ) ≤ 1 := by
        rw [div_le_one hKQ]
        have hsucc : s.currentQuestionIndex + 1 ≤ s.questions.length := hlt
        exact_mod_cast hsucc
      have hmul := mul_le_mul_of_nonneg_right hle
        (by norm_num : (0 : ℚ) ≤ 100)
      simp only [getProgress, hlen, if_false]
      simpa using hmul

/-- Closed instance of reachable_cursor_in_range at a reachable state with
a non-empty question list. -/
theorem reachable_cursor_in_range_witness :
    cursorInv (startTest TestType.numberComparison [sampleQuestion] 100
      initialState) ∧
    ((startTest TestType.numberComparison [sampleQuestion] 100
      initialState).questions ≠ [] →
      (getCurrentQuestion (startTest TestType.numberComparison
        [sampleQuestion] 100 initialState)).isSome = true) ∧
    getProgress (startTest TestType.numberComparison [sampleQuestion] 100
      initialState) ≤ 100 :=
  reachable_cursor_in_range
    (startTest TestType.numberComparison [sampleQuestion] 100 initialState)
    (Reachable.stepStartTest TestType.numberComparison [sampleQuestion]
      100 initialState Reachable.init)

end Dyscalculia
